import Mathlib

/-!
gestion-utilisateurs: sessions, login audit and the user directory

A shallow embedding of the Express routes of `src/gestion-utilisateurs`
(`middleware/auth.js`, `routes/authRoutes.js`, `routes/userRoutes.js`).

The PostgreSQL store is a record of tables, each table a list of rows in
insertion order. A route is a function from the store (and the request) to a
response and the committed store; `ROLLBACK` returns the store the route
started from. Time stamps are milliseconds, numbers are unbounded integers
(a JavaScript number is exact up to 2^53; the statements about `page` and the
page query are made below that bound).
The collaborators that live outside the repository (bcrypt, uuid, the clock,
`String.prototype.toLowerCase`, the store's text-to-integer coercion of a
query parameter) are the fields of `Env`.

A call that raises sends the route to its `catch` branch (500, rollback). This
is modelled where the request decides it: a text parameter the store cannot read
as an integer, a `LIMIT` or `OFFSET` that is negative or above the 64-bit range of
the store, a password that `bcrypt.compare` rejects. The schema is not among the
sources, so its column constraints are not modelled: an inserted row is accepted
as it is, and a scalar subquery takes the first matching row.
-/

set_option autoImplicit false

namespace GestionUtilisateurs

/-! ## Tables -/

/-- Row of `utilisateurs` (the columns the routes read or write). -/
structure Utilisateur where
  id : Int
  email : String
  password_hash : String
  nom : Option String
  prenom : Option String
  actif : Bool
  date_creation : Nat
  date_modification : Nat
deriving DecidableEq, Repr

/-- Row of `roles`. -/
structure Role where
  id : Int
  nom : String
deriving DecidableEq, Repr

/-- Row of `permissions`. -/
structure Permission where
  id : Int
  nom : String
  ressource : String
  action : String
  description : Option String
deriving DecidableEq, Repr

/-- Row of `utilisateur_roles`. The role id is what the value expression of the
insert evaluated to: `none` is SQL `NULL`. -/
structure UtilisateurRole where
  utilisateur_id : Int
  role_id : Option Int
deriving DecidableEq, Repr

/-- Row of `role_permissions`. -/
structure RolePermission where
  role_id : Int
  permission_id : Int
deriving DecidableEq, Repr

/-- Row of `sessions`. -/
structure Session where
  utilisateur_id : Int
  token : String
  date_expiration : Nat
  actif : Bool
deriving DecidableEq, Repr

/-- Row of `logs_connexion`. -/
structure LogConnexion where
  utilisateur_id : Option Int
  email_tentative : String
  succes : Bool
  message : String
  adresse_ip : Option String
  user_agent : Option String
  date_heure : Nat
deriving DecidableEq, Repr

/-- The store: the seven tables and the sequence behind `utilisateurs.id`. -/
structure Store where
  utilisateurs : List Utilisateur
  roles : List Role
  permissions : List Permission
  utilisateur_roles : List UtilisateurRole
  role_permissions : List RolePermission
  sessions : List Session
  logs_connexion : List LogConnexion
  utilisateurs_id_seq : Int
deriving DecidableEq, Repr

/-- What a call takes from outside the repository. -/
structure Env where
  /-- `CURRENT_TIMESTAMP`, the clock of the store, in milliseconds. -/
  now : Nat
  /-- The `Date` that `POST /login` gives a session as its expiry: `new Date()` on
  the clock of the server, with 24 added to its local hour by `setHours`. -/
  expiresAt : Nat
  /-- The value `uuidv4()` returns to this call. -/
  uuidv4 : String
  /-- `bcrypt.hash(password, 10)`. -/
  bcryptHash : String → String
  /-- `bcrypt.compare(password, hash)` on the `password` field of the body, which is
  `none` when the field is absent or not a string. The result is `none` when the
  promise rejects, as the argument check of the library does for a password that is
  not a string. -/
  bcryptCompare : Option String → String → Option Bool
  /-- `String.prototype.toLowerCase`. -/
  toLowerCase : String → String
  /-- The store's reading of a text parameter compared with an integer column;
  `none` when the store raises on it. -/
  pgInteger : String → Option Int

/-! ## Requests and responses -/

/-- `req.user`, the row `requireAuth` selects. -/
structure Identity where
  utilisateur_id : Int
  email : String
  nom : Option String
  prenom : Option String
deriving DecidableEq, Repr

/-- What `requireAuth` adds to the request: `req.user` and `req.token`. -/
structure AuthContext where
  user : Identity
  token : String
deriving DecidableEq, Repr

/-- Row returned by `fetchUserWithRoles`; `roles` is `array_agg(r.nom)`. -/
structure UserWithRoles where
  id : Int
  email : String
  nom : Option String
  prenom : Option String
  actif : Bool
  date_creation : Nat
  roles : List (Option String)
deriving DecidableEq, Repr

/-- Row of the user list (`SELECT id, email, nom, prenom, actif, date_creation`). -/
structure UserRow where
  id : Int
  email : String
  nom : Option String
  prenom : Option String
  actif : Bool
  date_creation : Nat
deriving DecidableEq, Repr

/-- Row returned by the insert of `register`. -/
structure NewUser where
  id : Int
  email : String
  nom : Option String
  prenom : Option String
  date_creation : Nat
deriving DecidableEq, Repr

/-- Row of the permissions query. -/
structure PermissionRow where
  nom : String
  ressource : String
  action : String
  description : Option String
deriving DecidableEq, Repr

/-- Row of the profile query; `roles` is `array_agg(r.nom)`. -/
structure Profile where
  id : Int
  email : String
  nom : Option String
  prenom : Option String
  roles : List (Option String)
deriving DecidableEq, Repr

/-- The `pagination` object of the user list. -/
structure Pagination where
  page : Int
  limit : Int
  total : Int
  totalPages : Int
deriving DecidableEq, Repr

/-- JSON bodies the routes send. -/
inductive Body where
  | error (error : String)
  | message (message : String)
  | registered (message : String) (user : NewUser)
  | loggedIn (message : String) (token : String) (user : Identity) (expiresAt : Nat)
  | userList (pagination : Pagination) (users : List UserRow)
  | permissions (utilisateurId : String) (permissions : List PermissionRow)
  | updated (message : String) (user : Option UserWithRoles)
  | user (user : UserWithRoles)
  | profile (user : Option Profile)
deriving DecidableEq, Repr

/-- An HTTP response: status code and JSON body. -/
structure Response where
  status : Nat
  body : Body
deriving DecidableEq, Repr

/-- Outcome of a middleware: it either answers the request itself or calls
`next()`, with what it attached to the request. -/
inductive Guard (α : Type) where
  | reject (res : Response)
  | next (a : α)
deriving DecidableEq, Repr

/-! ## middleware/auth.js -/

/-- `s.startsWith(p)`. -/
def startsWith (s p : String) : Bool :=
  p.data.isPrefixOf s.data

/-- `s.substring(n)`. -/
def substring (s : String) (n : Nat) : String :=
  ⟨s.data.drop n⟩

/-- The query of `requireAuth`: sessions with the token that are active and
unexpired, joined to their owner when the owner is active. -/
def selectSession (st : Store) (now : Nat) (token : String) : List Identity :=
  st.sessions.flatMap fun s =>
    (st.utilisateurs.filter fun u =>
      decide (s.utilisateur_id = u.id) && decide (s.token = token) && s.actif
        && decide (now < s.date_expiration) && u.actif).map
      fun u => { utilisateur_id := u.id, email := u.email, nom := u.nom, prenom := u.prenom }

/-- `requireAuth(req, res, next)` on the `authorization` header of the request. -/
def requireAuth (st : Store) (now : Nat) (authorization : Option String) :
    Guard AuthContext :=
  match authorization with
  | none => .reject ⟨401, .error "Token manquant ou format invalide"⟩
  | some authHeader =>
    if authHeader = "" || !startsWith authHeader "Bearer " then
      .reject ⟨401, .error "Token manquant ou format invalide"⟩
    else
      let token := substring authHeader 7
      match selectSession st now token with
      | [] => .reject ⟨401, .error "Token invalide ou expiré"⟩
      | row :: _ => .next { user := row, token := token }

/-- Modelled from the spec: the store-side function `utilisateur_a_permission`
is declared in the database schema, which is not among the sources. It is true
iff a role held by the user is bound to a permission with exactly this
resource and action. -/
def utilisateur_a_permission (st : Store) (utilisateur_id : Int)
    (ressource action : String) : Bool :=
  st.utilisateur_roles.any fun ur =>
    decide (ur.utilisateur_id = utilisateur_id) &&
    st.role_permissions.any fun rp =>
      decide (ur.role_id = some rp.role_id) &&
      st.permissions.any fun p =>
        decide (p.id = rp.permission_id) && decide (p.ressource = ressource)
          && decide (p.action = action)

/-- `requirePermission(ressource, action)` applied to an authenticated request. -/
def requirePermission (st : Store) (ressource action : String) (ctx : AuthContext) :
    Guard Unit :=
  if !utilisateur_a_permission st ctx.user.utilisateur_id ressource action then
    .reject ⟨403, .error "Permission refusée"⟩
  else
    .next ()

/-! ## routes/authRoutes.js -/

/-- Body of `POST /register`; `none` is a field that is absent. -/
structure RegisterBody where
  email : Option String
  password : Option String
  nom : Option String
  prenom : Option String
deriving DecidableEq, Repr

/-- `POST /register`. -/
def post_register (env : Env) (st : Store) (body : RegisterBody) : Response × Store :=
  match body.email, body.password with
  | some email, some password =>
    if email = "" || password = "" then
      (⟨400, .error "Email et mot de passe requis"⟩, st)
    else
      match st.utilisateurs.filter fun u => decide (u.email = email) with
      | _ :: _ => (⟨409, .error "Email déjà utilisé"⟩, st)
      | [] =>
        let passwordHash := env.bcryptHash password
        let newUser : NewUser :=
          { id := st.utilisateurs_id_seq, email := email, nom := body.nom,
            prenom := body.prenom, date_creation := env.now }
        let row : Utilisateur :=
          { id := newUser.id, email := email, password_hash := passwordHash,
            nom := body.nom, prenom := body.prenom, actif := true,
            date_creation := env.now, date_modification := env.now }
        let bindings : List UtilisateurRole :=
          (st.roles.filter fun r => decide (r.nom = "user")).map
            fun r => { utilisateur_id := newUser.id, role_id := some r.id }
        (⟨201, .registered "Utilisateur créé avec succès" newUser⟩,
          { st with
            utilisateurs := st.utilisateurs ++ [row]
            utilisateur_roles := st.utilisateur_roles ++ bindings
            utilisateurs_id_seq := st.utilisateurs_id_seq + 1 })
  | _, _ => (⟨400, .error "Email et mot de passe requis"⟩, st)

/-- What `POST /login` reads of the request. The route does not validate the
body: `password` is `none` when the field is absent or not a string. -/
structure LoginRequest where
  email : String
  password : Option String
  ip : Option String
  userAgent : Option String
deriving DecidableEq, Repr

/-- The JavaScript `x || d` on a string that may be absent. -/
def orString (x : Option String) (d : String) : String :=
  match x with
  | none => d
  | some s => if s = "" then d else s

/-- `INSERT INTO logs_connexion`. -/
def insertLog (st : Store) (log : LogConnexion) : Store :=
  { st with logs_connexion := st.logs_connexion ++ [log] }

/-- `POST /login`. When `bcrypt.compare` rejects, the `catch` branch rolls the
transaction back and answers 500. -/
def post_login (env : Env) (st : Store) (req : LoginRequest) : Response × Store :=
  let logIp := orString req.ip "::1"
  let logUserAgent := orString req.userAgent "Unknown"
  match st.utilisateurs.filter fun u => decide (u.email = req.email) with
  | [] =>
    (⟨401, .error "Email ou mot de passe incorrect"⟩,
      insertLog st ⟨none, req.email, false, "Email inexistant", some logIp,
        some logUserAgent, env.now⟩)
  | user :: _ =>
    if !user.actif then
      (⟨403, .error "Compte désactivé"⟩,
        insertLog st ⟨some user.id, req.email, false, "Compte désactivé", some logIp,
          some logUserAgent, env.now⟩)
    else
      match env.bcryptCompare req.password user.password_hash with
      | none => (⟨500, .error "Erreur serveur"⟩, st)
      | some passwordMatch =>
        if !passwordMatch then
          (⟨401, .error "Email ou mot de passe incorrect"⟩,
            insertLog st ⟨some user.id, req.email, false, "Mot de passe invalide",
              some logIp, some logUserAgent, env.now⟩)
        else
          let token := env.uuidv4
          let expiresAt := env.expiresAt
          let st1 : Store :=
            { st with sessions := st.sessions ++ [⟨user.id, token, expiresAt, true⟩] }
          (⟨200, .loggedIn "Connexion réussie" token
              ⟨user.id, user.email, user.nom, user.prenom⟩ expiresAt⟩,
            insertLog st1 ⟨some user.id, req.email, true, "Connexion réussie", some logIp,
              some logUserAgent, env.now⟩)

/-- The session update of `POST /logout`
(`UPDATE sessions SET actif = false WHERE token = $1 AND actif = true
RETURNING utilisateur_id`): the returned rows and the store after it. -/
def revoke (st : Store) (token : String) : List Int × Store :=
  ((st.sessions.filter fun s => decide (s.token = token) && s.actif).map
      fun s => s.utilisateur_id,
    { st with
      sessions := st.sessions.map fun s =>
        if decide (s.token = token) && s.actif then { s with actif := false } else s })

/-- The handler of `POST /logout`, after `requireAuth`. -/
def logoutHandler (env : Env) (st : Store) (ctx : AuthContext) : Response × Store :=
  match revoke st ctx.token with
  | ([], st1) => (⟨200, .message "Déconnexion réussie"⟩, st1)
  | (userId :: _, st1) =>
    (⟨200, .message "Déconnexion réussie"⟩,
      insertLog st1 ⟨some userId, ctx.user.email, true, "Déconnexion réussie", none, none,
        env.now⟩)

/-- `POST /logout`: `requireAuth`, then the handler. -/
def post_logout (env : Env) (st : Store) (authorization : Option String) :
    Response × Store :=
  match requireAuth st env.now authorization with
  | .reject res => (res, st)
  | .next ctx => logoutHandler env st ctx

/-! ## routes/userRoutes.js -/

/-- The role names of one user as `fetchUserWithRoles` aggregates them
(`array_agg(r.nom)` over the two `LEFT JOIN`s): a user without binding gives one
joined row whose `r.nom` is `NULL`, and so does a binding without matching role.
The aggregate has no `ORDER BY`: the store returns the names in an order of its
own, and the list here, in the order of the bindings, stands for any of its
permutations. -/
def aggRoles (st : Store) (u : Utilisateur) : List (Option String) :=
  match st.utilisateur_roles.filter fun ur => decide (u.id = ur.utilisateur_id) with
  | [] => [none]
  | ur :: urs =>
    (ur :: urs).flatMap fun b =>
      match st.roles.filter fun r => decide (b.role_id = some r.id) with
      | [] => [none]
      | r :: rs => (r :: rs).map fun x => some x.nom

/-- `fetchUserWithRoles(id)`: `result.rows[0]`, `none` when there is no row. -/
def fetchUserWithRoles (st : Store) (id : Int) : Option UserWithRoles :=
  match st.utilisateurs.filter fun u => decide (u.id = id) with
  | [] => none
  | u :: _ =>
    some { id := u.id, email := u.email, nom := u.nom, prenom := u.prenom,
           actif := u.actif, date_creation := u.date_creation, roles := aggRoles st u }

/-- White space `parseInt` skips at the start of its argument. -/
def isStrWhiteSpaceChar (c : Char) : Bool :=
  [0x09, 0x0A, 0x0B, 0x0C, 0x0D, 0x20, 0xA0, 0x1680, 0x2028, 0x2029, 0x202F, 0x205F,
    0x3000, 0xFEFF].contains c.toNat || (decide (0x2000 ≤ c.toNat) && decide (c.toNat ≤ 0x200A))

/-- A decimal digit. -/
def isDecimalDigit (c : Char) : Bool :=
  decide (48 ≤ c.toNat) && decide (c.toNat ≤ 57)

/-- The number a list of decimal digits writes. -/
def digitsValue (cs : List Char) : Nat :=
  cs.foldl (fun acc c => 10 * acc + (c.toNat - 48)) 0

/-- `parseInt(x, 10)`; `none` is `NaN`. An absent parameter is `undefined`,
which parses to `NaN`. The result is the integer the digits write; JavaScript
rounds it to the nearest double when it is above 2^53. -/
def parseInt (x : Option String) : Option Int :=
  match x with
  | none => none
  | some str =>
    let s := str.data.dropWhile isStrWhiteSpaceChar
    let signed : Int × List Char :=
      match s with
      | '-' :: r => (-1, r)
      | '+' :: r => (1, r)
      | _ => (1, s)
    match signed.2.takeWhile isDecimalDigit with
    | [] => none
    | z => some (signed.1 * (digitsValue z : Int))

/-- The JavaScript `x || d` on a number: `NaN` and `0` give `d`. -/
def orInt (x : Option Int) (d : Int) : Int :=
  match x with
  | none => d
  | some n => if n = 0 then d else n

/-- `const page = Math.max(parseInt(req.query.page, 10) || 1, 1)`, exact for a
parameter up to 2^53. -/
def page (queryPage : Option String) : Int :=
  max (orInt (parseInt queryPage) 1) 1

/-- `const limit = Math.min(parseInt(req.query.limit, 10) || 20, 100)`. -/
def limit (queryLimit : Option String) : Int :=
  min (orInt (parseInt queryLimit) 20) 100

/-- `const offset = (page - 1) * limit`. -/
def offset (page limit : Int) : Int :=
  (page - 1) * limit

/-- `const totalPages = Math.max(Math.ceil(total / limit), 1)`. -/
def totalPages (total limit : Int) : Int :=
  max ⌈(total : ℚ) / (limit : ℚ)⌉ 1

/-- Projection of the user list. -/
def toUserRow (u : Utilisateur) : UserRow :=
  { id := u.id, email := u.email, nom := u.nom, prenom := u.prenom, actif := u.actif,
    date_creation := u.date_creation }

/-- `ORDER BY id DESC`. -/
def orderByIdDesc (us : List Utilisateur) : List Utilisateur :=
  us.insertionSort fun a b => b.id ≤ a.id

/-- The page query (`... ORDER BY id DESC LIMIT $1 OFFSET $2`); `none` when the
store raises, which it does on a `LIMIT` or `OFFSET` that is negative or does not
fit its 64-bit integer. -/
def selectUsers (st : Store) (limit offset : Int) : Option (List UserRow) :=
  if limit < 0 ∨ offset < 0 ∨ 2 ^ 63 ≤ limit ∨ 2 ^ 63 ≤ offset then none
  else some ((((orderByIdDesc st.utilisateurs).drop offset.toNat).take limit.toNat).map toUserRow)

/-- The handler of `GET /` (the user list), after the two middlewares. -/
def listHandler (st : Store) (queryPage queryLimit : Option String) : Response :=
  let page := page queryPage
  let limit := limit queryLimit
  let offset := offset page limit
  match selectUsers st limit offset with
  | none => ⟨500, .error "Erreur serveur"⟩
  | some rows =>
    let total : Int := st.utilisateurs.length
    ⟨200, .userList ⟨page, limit, total, totalPages total limit⟩ rows⟩

/-- `GET /` (the user list): `requireAuth`, `requirePermission('users', 'read')`,
then the handler. -/
def get_users (env : Env) (st : Store) (authorization : Option String)
    (queryPage queryLimit : Option String) : Response :=
  match requireAuth st env.now authorization with
  | .reject res => res
  | .next ctx =>
    match requirePermission st "users" "read" ctx with
    | .reject res => res
    | .next _ => listHandler st queryPage queryLimit

/-- Projection of the permissions query. -/
def toPermissionRow (p : Permission) : PermissionRow :=
  { nom := p.nom, ressource := p.ressource, action := p.action, description := p.description }

/-- The query of `GET /:id/permissions`: the distinct permissions reached from the
user through `utilisateur_roles` and `role_permissions`, ordered by resource, then
action. Strings are compared by code point here, where the store follows the
collation of the database and orders rows that tie as it likes: the list stands for
the rows of the query, its order for one the store may return. -/
def listPermissions (st : Store) (id : Int) : List PermissionRow :=
  let rows : List PermissionRow :=
    (st.utilisateurs.filter fun u => decide (u.id = id)).flatMap fun u =>
      (st.utilisateur_roles.filter fun ur => decide (u.id = ur.utilisateur_id)).flatMap fun ur =>
        (st.role_permissions.filter fun rp => decide (ur.role_id = some rp.role_id)).flatMap
          fun rp =>
            (st.permissions.filter fun p => decide (p.id = rp.permission_id)).map toPermissionRow
  rows.dedup.insertionSort fun a b =>
    a.ressource < b.ressource ∨ (a.ressource = b.ressource ∧ ¬ b.action < a.action)

/-- `GET /:id/permissions`. -/
def get_user_permissions (env : Env) (st : Store) (authorization : Option String)
    (id : String) : Response :=
  match requireAuth st env.now authorization with
  | .reject res => res
  | .next ctx =>
    match requirePermission st "users" "read" ctx with
    | .reject res => res
    | .next _ =>
      match env.pgInteger id with
      | none => ⟨500, .error "Erreur serveur"⟩
      | some uid =>
        match listPermissions st uid with
        | [] => ⟨404, .error "Utilisateur ou permissions introuvables"⟩
        | row :: rows => ⟨200, .permissions id (row :: rows)⟩

/-- `GET /:id`: `requireAuth`, `requirePermission('users', 'read')`, then
`fetchUserWithRoles`. -/
def get_user (env : Env) (st : Store) (authorization : Option String) (id : String) :
    Response :=
  match requireAuth st env.now authorization with
  | .reject res => res
  | .next ctx =>
    match requirePermission st "users" "read" ctx with
    | .reject res => res
    | .next _ =>
      match env.pgInteger id with
      | none => ⟨500, .error "Erreur serveur"⟩
      | some uid =>
        match fetchUserWithRoles st uid with
        | none => ⟨404, .error "Utilisateur non trouvé"⟩
        | some user => ⟨200, .user user⟩

/-- The query of `GET /profile`: `result.rows[0]`, `none` when there is no row. -/
def profileQuery (st : Store) (id : Int) : Option Profile :=
  match st.utilisateurs.filter fun u => decide (u.id = id) with
  | [] => none
  | u :: _ =>
    some { id := u.id, email := u.email, nom := u.nom, prenom := u.prenom,
           roles := aggRoles st u }

/-- `GET /profile`: `requireAuth`, then the profile query for `req.user`. -/
def get_profile (env : Env) (st : Store) (authorization : Option String) : Response :=
  match requireAuth st env.now authorization with
  | .reject res => res
  | .next ctx => ⟨200, .profile (profileQuery st ctx.user.utilisateur_id)⟩

/-- Body of `PUT /:id`. A field is `none` when it is `undefined`; `nom` and
`prenom` may also be JSON `null` (`some none`). `roles` is `some` when the field is
an array. -/
structure UpdateBody where
  nom : Option (Option String)
  prenom : Option (Option String)
  actif : Option Bool
  roles : Option (List String)
  password : Option String
deriving DecidableEq, Repr

/-- The field update of `PUT /:id`
(`UPDATE utilisateurs SET date_modification = CURRENT_TIMESTAMP, ... WHERE id = $n
RETURNING id`): the returned rows and the store after it. -/
def updateUtilisateur (env : Env) (st : Store) (id : Int) (body : UpdateBody) :
    List Int × Store :=
  ((st.utilisateurs.filter fun u => decide (u.id = id)).map fun u => u.id,
    { st with
      utilisateurs := st.utilisateurs.map fun u =>
        if u.id = id then
          { u with
            date_modification := env.now
            nom := match body.nom with
              | none => u.nom
              | some v => v
            prenom := match body.prenom with
              | none => u.prenom
              | some v => v
            actif := match body.actif with
              | none => u.actif
              | some v => v
            password_hash := match body.password with
              | none => u.password_hash
              | some pw => if pw = "" then u.password_hash else env.bcryptHash pw }
        else u })

/-- The scalar subquery `(SELECT id FROM roles WHERE nom = $k)`: `none` (SQL
`NULL`) when no role has the name. Role names are unique in the schema. -/
def roleIdByName (st : Store) (nom : String) : Option Int :=
  (st.roles.find? fun r => decide (r.nom = nom)).map fun r => r.id

/-- The role replacement of `PUT /:id`: delete the bindings of the user, then
insert one binding per supplied name, looked up in lower case. -/
def replaceRoles (env : Env) (st : Store) (id : Int) (roles : List String) : Store :=
  let st1 : Store :=
    { st with
      utilisateur_roles := st.utilisateur_roles.filter fun ur => !decide (ur.utilisateur_id = id) }
  match roles with
  | [] => st1
  | _ :: _ =>
    let roleNames := roles.map env.toLowerCase
    { st1 with
      utilisateur_roles := st1.utilisateur_roles ++
        roleNames.map fun n => { utilisateur_id := id, role_id := roleIdByName st1 n } }

/-- The handler of `PUT /:id`, after the two middlewares. -/
def updateHandler (env : Env) (st : Store) (id : String) (body : UpdateBody) :
    Response × Store :=
  match env.pgInteger id with
  | none => (⟨500, .error "Erreur serveur"⟩, st)
  | some uid =>
    match updateUtilisateur env st uid body with
    | ([], _) => (⟨404, .error "Utilisateur non trouvé"⟩, st)
    | (_ :: _, st1) =>
      let st2 : Store :=
        match body.roles with
        | none => st1
        | some roles => replaceRoles env st1 uid roles
      (⟨200, .updated "Utilisateur mis à jour avec succès" (fetchUserWithRoles st2 uid)⟩, st2)

/-- `PUT /:id`: `requireAuth`, `requirePermission('users', 'write')`, then the
handler. -/
def put_user (env : Env) (st : Store) (authorization : Option String) (id : String)
    (body : UpdateBody) : Response × Store :=
  match requireAuth st env.now authorization with
  | .reject res => (res, st)
  | .next ctx =>
    match requirePermission st "users" "write" ctx with
    | .reject res => (res, st)
    | .next _ => updateHandler env st id body

/-- The handler of `DELETE /:id`, after the two middlewares. -/
def deleteHandler (env : Env) (st : Store) (ctx : AuthContext) (id : String) :
    Response × Store :=
  let targetId := parseInt (some id)
  if targetId = some ctx.user.utilisateur_id then
    (⟨400, .error "Impossible de supprimer votre propre compte"⟩, st)
  else
    match env.pgInteger id with
    | none => (⟨500, .error "Erreur serveur"⟩, st)
    | some uid =>
      let st1 : Store :=
        { st with
          utilisateur_roles :=
            st.utilisateur_roles.filter fun ur => !decide (ur.utilisateur_id = uid)
          sessions := st.sessions.filter fun s => !decide (s.utilisateur_id = uid)
          logs_connexion :=
            st.logs_connexion.filter fun l => !decide (l.utilisateur_id = some uid) }
      match st1.utilisateurs.filter fun u => decide (u.id = uid) with
      | [] => (⟨404, .error "Utilisateur non trouvé"⟩, st)
      | _ :: _ =>
        (⟨200, .message ("Utilisateur ID " ++ id ++ " supprimé avec succès")⟩,
          { st1 with utilisateurs := st1.utilisateurs.filter fun u => !decide (u.id = uid) })

/-- `DELETE /:id`: `requireAuth`, `requirePermission('users', 'delete')`, then the
handler. -/
def delete_user (env : Env) (st : Store) (authorization : Option String) (id : String) :
    Response × Store :=
  match requireAuth st env.now authorization with
  | .reject res => (res, st)
  | .next ctx =>
    match requirePermission st "users" "delete" ctx with
    | .reject res => (res, st)
    | .next _ => deleteHandler env st ctx id

/-! ## Derived relations -/

/-- The names of the roles a user holds: its bindings joined to `roles`. -/
def roleNamesOf (st : Store) (id : Int) : List String :=
  (st.utilisateur_roles.filter fun ur => decide (ur.utilisateur_id = id)).flatMap fun ur =>
    (st.roles.filter fun r => decide (ur.role_id = some r.id)).map fun r => r.nom

/-! ## Sample data -/

/-- A store whose `roles` table has no row. -/
def unseededStore : Store :=
  { utilisateurs := []
    roles := []
    permissions := []
    utilisateur_roles := []
    role_permissions := []
    sessions := []
    logs_connexion := []
    utilisateurs_id_seq := 1 }

/-- A registration of `n@b.c`. -/
def sampleRegister : RegisterBody :=
  { email := some "n@b.c", password := some "pw", nom := none, prenom := none }

/-- A store with one active user holding the role `user`, and one live session. -/
def sampleStore : Store :=
  { utilisateurs := [⟨1, "a@b.c", "h:pw", some "Nom", none, true, 0, 0⟩]
    roles := [⟨1, "user"⟩, ⟨2, "admin"⟩]
    permissions := [⟨1, "Supprimer", "users", "delete", none⟩]
    utilisateur_roles := [⟨1, some 1⟩]
    role_permissions := [⟨2, 1⟩]
    sessions := [⟨1, "tok", 100, true⟩]
    logs_connexion := []
    utilisateurs_id_seq := 2 }

/-- A decimal reading of a text parameter, for the sample environment. -/
def sampleInteger (s : String) : Option Int :=
  match s.data with
  | [] => none
  | c :: cs => if (c :: cs).all isDecimalDigit then some (digitsValue (c :: cs)) else none

/-- An environment for the sample calls. -/
def sampleEnv : Env :=
  { now := 5
    expiresAt := 86400005
    uuidv4 := "tok2"
    bcryptHash := fun pw => "h:" ++ pw
    bcryptCompare := fun password h =>
      match password with
      | none => none
      | some pw => some (decide (h = "h:" ++ pw))
    toLowerCase := fun s => s
    pgInteger := sampleInteger }

/-- A body of `PUT /:id` that only clears the active flag. -/
def deactivateBody : UpdateBody :=
  { nom := none, prenom := none, actif := some false, roles := none, password := none }

/-- A body of `PUT /:id` that only supplies `roles`. -/
def rolesBody (roles : List String) : UpdateBody :=
  { nom := none, prenom := none, actif := none, roles := some roles, password := none }

/-- The sample store with its user bound to `admin`, which may delete users. -/
def adminStore : Store :=
  { sampleStore with utilisateur_roles := [⟨1, some 2⟩] }

/-- The sample store after its session was revoked. -/
def loggedOutStore : Store :=
  { sampleStore with sessions := [⟨1, "tok", 100, false⟩] }

/-- The sample store with no binding: its user holds no role. -/
def unboundStore : Store :=
  { sampleStore with utilisateur_roles := [] }

/-- Lower case of a string on the letters `A` to `Z`. -/
def asciiLower (s : String) : String :=
  ⟨s.data.map fun c =>
    if 65 ≤ c.toNat ∧ c.toNat ≤ 90 then Char.ofNat (c.toNat + 32) else c⟩

/-- The sample environment with a lower-casing `toLowerCase`. -/
def lowerEnv : Env :=
  { sampleEnv with toLowerCase := asciiLower }

/-! ## Session validation -/

theorem startsWith_bearer_iff (h : String) :
    startsWith h "Bearer " = true ↔ ∃ token : String, h = "Bearer " ++ token := by
  unfold startsWith
  rw [List.isPrefixOf_iff_prefix]
  constructor
  · rintro ⟨t, ht⟩
    refine ⟨⟨t⟩, ?_⟩
    apply String.ext
    rw [String.data_append, ← ht]
  · rintro ⟨token, rfl⟩
    exact ⟨token.data, by rw [String.data_append]⟩

theorem substring_bearer (token : String) : substring ("Bearer " ++ token) 7 = token := by
  unfold substring
  apply String.ext
  rw [String.data_append]
  rfl

theorem mem_selectSession (st : Store) (now : Nat) (token : String) (row : Identity) :
    row ∈ selectSession st now token ↔
      ∃ s ∈ st.sessions, ∃ u ∈ st.utilisateurs,
        s.token = token ∧ s.actif = true ∧ now < s.date_expiration ∧
        s.utilisateur_id = u.id ∧ u.actif = true ∧
        row = ⟨u.id, u.email, u.nom, u.prenom⟩ := by
  simp only [selectSession, List.mem_flatMap, List.mem_map, List.mem_filter,
    Bool.and_eq_true, decide_eq_true_eq]
  constructor
  · rintro ⟨s, hs, u, ⟨hu, ⟨⟨⟨⟨h1, h2⟩, h3⟩, h4⟩, h5⟩⟩, rfl⟩
    exact ⟨s, hs, u, hu, h2, h3, h4, h1, h5, rfl⟩
  · rintro ⟨s, hs, u, hu, h2, h3, h4, h1, h5, rfl⟩
    exact ⟨s, hs, u, ⟨hu, ⟨⟨⟨⟨h1, h2⟩, h3⟩, h4⟩, h5⟩⟩, rfl⟩

theorem requireAuth_bearer (st : Store) (now : Nat) (token : String) :
    requireAuth st now (some ("Bearer " ++ token)) =
      match selectSession st now token with
      | [] => .reject ⟨401, .error "Token invalide ou expiré"⟩
      | row :: _ => .next { user := row, token := token } := by
  have h1 : startsWith ("Bearer " ++ token) "Bearer " = true :=
    (startsWith_bearer_iff _).2 ⟨token, rfl⟩
  have h2 : ("Bearer " ++ token) ≠ "" := by
    intro h
    have := congrArg String.length h
    simp only [String.length_append] at this
    have h7 : "Bearer ".length = 7 := by decide
    have h0 : "".length = 0 := by decide
    omega
  simp only [requireAuth, h1, h2, substring_bearer]
  simp

theorem requireAuth_next_header (st : Store) (now : Nat) (authorization : Option String)
    (ctx : AuthContext) (h : requireAuth st now authorization = .next ctx) :
    authorization = some ("Bearer " ++ ctx.token) ∧ ctx.user ∈ selectSession st now ctx.token := by
  cases authorization with
  | none => simp [requireAuth] at h
  | some hd =>
    by_cases hs : startsWith hd "Bearer " = true
    · obtain ⟨token, rfl⟩ := (startsWith_bearer_iff hd).1 hs
      rw [requireAuth_bearer] at h
      cases hsel : selectSession st now token with
      | nil => rw [hsel] at h; simp at h
      | cons row rest =>
        rw [hsel] at h
        simp only [Guard.next.injEq] at h
        subst h
        simp [hsel]
    · simp [requireAuth, hs] at h

/-- C1: `requireAuth` calls `next()` iff the header is `Bearer <token>` and some
session row with that token is active, expires strictly after the current time and
belongs to an active user; the identity attached is the id, email, nom and prenom of
such a user. After the owner of a live session is deactivated, the same token is
answered 401. -/
theorem requireAuth_accepts_iff_live_session (st : Store) (now : Nat) :
    (∀ authorization : Option String,
      (∃ ctx, requireAuth st now authorization = .next ctx) ↔
        ∃ token, authorization = some ("Bearer " ++ token) ∧
          ∃ s ∈ st.sessions, ∃ u ∈ st.utilisateurs,
            s.token = token ∧ s.actif = true ∧ now < s.date_expiration ∧
            s.utilisateur_id = u.id ∧ u.actif = true) ∧
    (∀ (authorization : Option String) (ctx : AuthContext),
      requireAuth st now authorization = .next ctx →
        authorization = some ("Bearer " ++ ctx.token) ∧
        ∃ s ∈ st.sessions, ∃ u ∈ st.utilisateurs,
          s.token = ctx.token ∧ s.actif = true ∧ now < s.date_expiration ∧
          s.utilisateur_id = u.id ∧ u.actif = true ∧
          ctx.user = ⟨u.id, u.email, u.nom, u.prenom⟩) ∧
    (∀ (env : Env) (body : UpdateBody), ∀ s ∈ st.sessions,
      s.actif = true → now < s.date_expiration →
      (∀ s2 ∈ st.sessions, s2.token = s.token → s2.utilisateur_id = s.utilisateur_id) →
      body.actif = some false →
        requireAuth (updateUtilisateur env st s.utilisateur_id body).2 now
            (some ("Bearer " ++ s.token)) =
          .reject ⟨401, .error "Token invalide ou expiré"⟩) := by
  refine ⟨?_, ?_, ?_⟩
  · intro authorization
    constructor
    · rintro ⟨ctx, h⟩
      obtain ⟨h1, h2⟩ := requireAuth_next_header st now authorization ctx h
      obtain ⟨s, hs, u, hu, a, b, c, d, e, _⟩ := (mem_selectSession st now _ _).1 h2
      exact ⟨ctx.token, h1, s, hs, u, hu, a, b, c, d, e⟩
    · rintro ⟨token, rfl, s, hs, u, hu, a, b, c, d, e⟩
      rw [requireAuth_bearer]
      have hm : (⟨u.id, u.email, u.nom, u.prenom⟩ : Identity) ∈ selectSession st now token :=
        (mem_selectSession st now _ _).2 ⟨s, hs, u, hu, a, b, c, d, e, rfl⟩
      cases hsel : selectSession st now token with
      | nil => rw [hsel] at hm; simp at hm
      | cons row rest => exact ⟨_, rfl⟩
  · intro authorization ctx h
    obtain ⟨h1, h2⟩ := requireAuth_next_header st now authorization ctx h
    exact ⟨h1, (mem_selectSession st now _ _).1 h2⟩
  · intro env body s _ _ _ huniq hbody
    rw [requireAuth_bearer]
    cases hsel : selectSession (updateUtilisateur env st s.utilisateur_id body).2 now s.token with
    | nil => rfl
    | cons row rest =>
      exfalso
      have hm : row ∈ selectSession (updateUtilisateur env st s.utilisateur_id body).2 now
          s.token := by rw [hsel]; simp
      obtain ⟨s2, hs2, u, hu, a, _, _, d, e, _⟩ := (mem_selectSession _ now _ _).1 hm
      simp only [updateUtilisateur, List.mem_map] at hs2 hu
      obtain ⟨v, hv, rfl⟩ := hu
      have hid : s2.utilisateur_id = s.utilisateur_id := huniq s2 hs2 a
      by_cases hvid : v.id = s.utilisateur_id
      · simp [hvid, hbody] at e
      · simp only [hvid, if_false] at d
        exact hvid (d ▸ hid)

/-- C1, on the sample store: the live token is accepted, and rejected once its
owner is deactivated. -/
theorem requireAuth_accepts_iff_live_session_witness :
    (∃ ctx, requireAuth sampleStore 5 (some ("Bearer " ++ "tok")) = .next ctx) ∧
    requireAuth (updateUtilisateur sampleEnv sampleStore 1 deactivateBody).2 5
        (some ("Bearer " ++ "tok")) =
      .reject ⟨401, .error "Token invalide ou expiré"⟩ :=
  ⟨((requireAuth_accepts_iff_live_session sampleStore 5).1 _).2
      ⟨"tok", rfl, ⟨1, "tok", 100, true⟩, by decide, ⟨1, "a@b.c", "h:pw", some "Nom", none,
        true, 0, 0⟩, by decide, rfl, rfl, by decide, rfl, rfl⟩,
    (requireAuth_accepts_iff_live_session sampleStore 5).2.2 sampleEnv deactivateBody
      ⟨1, "tok", 100, true⟩ (by decide) rfl (by decide) (by decide) rfl⟩

/-! ## Login -/

theorem filter_email_nil (st : Store) (email : String)
    (h : ∀ v ∈ st.utilisateurs, v.email ≠ email) :
    (st.utilisateurs.filter fun u => decide (u.email = email)) = [] := by
  rw [List.filter_eq_nil_iff]
  intro v hv
  simpa using h v hv

theorem filter_email_cons (st : Store) (email : String) (u : Utilisateur)
    (hu : u ∈ st.utilisateurs) (hemail : u.email = email)
    (huniq : ∀ v ∈ st.utilisateurs, v.email = email → v = u) :
    ∃ rest, (st.utilisateurs.filter fun v => decide (v.email = email)) = u :: rest := by
  cases hf : st.utilisateurs.filter fun v => decide (v.email = email) with
  | nil =>
    have : u ∈ st.utilisateurs.filter fun v => decide (v.email = email) := by
      simp [List.mem_filter, hu, hemail]
    rw [hf] at this
    simp at this
  | cons w rest =>
    have hw : w ∈ st.utilisateurs.filter fun v => decide (v.email = email) := by
      rw [hf]; simp
    simp only [List.mem_filter, decide_eq_true_eq] at hw
    exact ⟨rest, by rw [huniq w hw.1 hw.2]⟩

/-- C2: on the same store, a login with an email no user has and a login with the
email of an active user and a password that does not verify get the same response
(401, `Email ou mot de passe incorrect`); the first appends an audit entry with no
user id and message `Email inexistant`, the second one with the user's id and
message `Mot de passe invalide`. -/
theorem login_unknown_email_same_response_as_wrong_password (env : Env) (st : Store)
    (r1 r2 : LoginRequest) (u : Utilisateur)
    (hnone : ∀ v ∈ st.utilisateurs, v.email ≠ r1.email)
    (hu : u ∈ st.utilisateurs) (hemail : u.email = r2.email)
    (huniq : ∀ v ∈ st.utilisateurs, v.email = r2.email → v = u)
    (hactif : u.actif = true)
    (hpw : env.bcryptCompare r2.password u.password_hash = some false) :
    (post_login env st r1).1 = (post_login env st r2).1 ∧
    (post_login env st r1).1 = ⟨401, .error "Email ou mot de passe incorrect"⟩ ∧
    ∃ l1 l2 : LogConnexion,
      (post_login env st r1).2.logs_connexion = st.logs_connexion ++ [l1] ∧
      (post_login env st r2).2.logs_connexion = st.logs_connexion ++ [l2] ∧
      l1.utilisateur_id = none ∧ l1.message = "Email inexistant" ∧
      l2.utilisateur_id = some u.id ∧ l2.message = "Mot de passe invalide" ∧
      l1.succes = false ∧ l2.succes = false ∧ l1 ≠ l2 := by
  obtain ⟨rest, hf⟩ := filter_email_cons st r2.email u hu hemail huniq
  have h1 := filter_email_nil st r1.email hnone
  refine ⟨?_, ?_,
    ⟨none, r1.email, false, "Email inexistant", some (orString r1.ip "::1"),
      some (orString r1.userAgent "Unknown"), env.now⟩,
    ⟨some u.id, r2.email, false, "Mot de passe invalide", some (orString r2.ip "::1"),
      some (orString r2.userAgent "Unknown"), env.now⟩, ?_⟩
  · simp [post_login, h1, hf, hactif, hpw]
  · simp [post_login, h1]
  · simp [post_login, h1, hf, hactif, hpw, insertLog]

/-- C2, on the sample store: an unknown email against the sample user with a wrong
password. -/
theorem login_unknown_email_same_response_as_wrong_password_witness :
    (post_login sampleEnv sampleStore ⟨"x@y.z", some "pw", none, none⟩).1 =
      (post_login sampleEnv sampleStore ⟨"a@b.c", some "bad", none, none⟩).1 :=
  (login_unknown_email_same_response_as_wrong_password sampleEnv sampleStore
    ⟨"x@y.z", some "pw", none, none⟩ ⟨"a@b.c", some "bad", none, none⟩
    ⟨1, "a@b.c", "h:pw", some "Nom", none, true, 0, 0⟩
    (by decide) (by decide) rfl (by decide) rfl (by decide)).1

theorem post_login_compare_rejects (env : Env) (st : Store) (req : LoginRequest)
    (user : Utilisateur) (rest : List Utilisateur)
    (hf : (st.utilisateurs.filter fun u => decide (u.email = req.email)) = user :: rest)
    (ha : user.actif = true)
    (hc : env.bcryptCompare req.password user.password_hash = none) :
    post_login env st req = (⟨500, .error "Erreur serveur"⟩, st) := by
  simp [post_login, hf, ha, hc]

theorem login_audit_when_compare_answers (env : Env) (st : Store) (req : LoginRequest)
    (hc : ∀ u ∈ st.utilisateurs, env.bcryptCompare req.password u.password_hash ≠ none) :
    ∃ l : LogConnexion,
      (post_login env st req).2.logs_connexion = st.logs_connexion ++ [l] ∧
      l.email_tentative = req.email ∧
      (l.succes = true ↔ (post_login env st req).1.status = 200) ∧
      ((post_login env st req).1.status = 200 ↔
        ∃ user rest, (st.utilisateurs.filter fun u => decide (u.email = req.email)) = user :: rest
          ∧ user.actif = true ∧
          env.bcryptCompare req.password user.password_hash = some true) ∧
      (post_login env st req).2.sessions =
        (if (post_login env st req).1.status = 200 then
          st.sessions ++ [⟨l.utilisateur_id.getD 0, env.uuidv4, env.expiresAt, true⟩]
        else st.sessions) ∧
      (post_login env st req).2.utilisateurs = st.utilisateurs ∧
      (post_login env st req).2.utilisateur_roles = st.utilisateur_roles := by
  cases hf : st.utilisateurs.filter fun u => decide (u.email = req.email) with
  | nil =>
    refine ⟨⟨none, req.email, false, "Email inexistant", some (orString req.ip "::1"),
      some (orString req.userAgent "Unknown"), env.now⟩, ?_⟩
    simp [post_login, hf, insertLog]
  | cons user rest =>
    have hmem : user ∈ st.utilisateurs := by
      have : user ∈ st.utilisateurs.filter fun u => decide (u.email = req.email) := by
        rw [hf]; simp
      exact (List.mem_filter.1 this).1
    by_cases ha : user.actif = true
    · cases hp : env.bcryptCompare req.password user.password_hash with
      | none => exact absurd hp (hc user hmem)
      | some b =>
        cases b with
        | true =>
          refine ⟨⟨some user.id, req.email, true, "Connexion réussie",
            some (orString req.ip "::1"), some (orString req.userAgent "Unknown"), env.now⟩, ?_⟩
          simp [post_login, hf, insertLog, ha, hp]
        | false =>
          refine ⟨⟨some user.id, req.email, false, "Mot de passe invalide",
            some (orString req.ip "::1"), some (orString req.userAgent "Unknown"), env.now⟩, ?_⟩
          simp [post_login, hf, insertLog, ha, hp]
    · refine ⟨⟨some user.id, req.email, false, "Compte désactivé",
        some (orString req.ip "::1"), some (orString req.userAgent "Unknown"), env.now⟩, ?_⟩
      simp [post_login, hf, insertLog, ha]

/-- C3, at a login without password: `POST /api/auth/login` with only the email
of the active sample user makes `bcrypt.compare` reject; the route answers 500 and
the store is the one it started from, with no audit entry, while the same request
with a wrong password commits one. -/
theorem login_without_password_commits_nothing :
    post_login sampleEnv sampleStore ⟨"a@b.c", none, none, none⟩ =
      (⟨500, .error "Erreur serveur"⟩, sampleStore) ∧
    (post_login sampleEnv sampleStore ⟨"a@b.c", none, none, none⟩).2.logs_connexion = [] ∧
    (post_login sampleEnv sampleStore ⟨"a@b.c", some "bad", none, none⟩).2.logs_connexion =
      [⟨some 1, "a@b.c", false, "Mot de passe invalide", some "::1", some "Unknown", 5⟩] := by
  refine ⟨by decide, by decide, by decide⟩

/-! ## Registration -/

theorem post_register_conflict (env : Env) (st : Store) (body : RegisterBody)
    (email password : String) (he : body.email = some email)
    (hp : body.password = some password) (hne : email ≠ "") (hnp : password ≠ "")
    (hex : ∃ u ∈ st.utilisateurs, u.email = email) :
    post_register env st body = (⟨409, .error "Email déjà utilisé"⟩, st) := by
  obtain ⟨u, hu, hue⟩ := hex
  cases hf : st.utilisateurs.filter fun v => decide (v.email = email) with
  | nil =>
    have : u ∈ st.utilisateurs.filter fun v => decide (v.email = email) := by
      simp [List.mem_filter, hu, hue]
    rw [hf] at this
    simp at this
  | cons w rest => simp [post_register, he, hp, hne, hnp, hf]

theorem post_register_created (env : Env) (st : Store) (body : RegisterBody)
    (email password : String) (he : body.email = some email)
    (hp : body.password = some password) (hne : email ≠ "") (hnp : password ≠ "")
    (hno : ∀ u ∈ st.utilisateurs, u.email ≠ email) :
    post_register env st body =
      (⟨201, .registered "Utilisateur créé avec succès"
          ⟨st.utilisateurs_id_seq, email, body.nom, body.prenom, env.now⟩⟩,
        { st with
          utilisateurs := st.utilisateurs ++
            [⟨st.utilisateurs_id_seq, email, env.bcryptHash password, body.nom, body.prenom,
              true, env.now, env.now⟩]
          utilisateur_roles := st.utilisateur_roles ++
            (st.roles.filter fun r => decide (r.nom = "user")).map
              fun r => { utilisateur_id := st.utilisateurs_id_seq, role_id := some r.id }
          utilisateurs_id_seq := st.utilisateurs_id_seq + 1 }) := by
  have hf := filter_email_nil st email hno
  simp [post_register, he, hp, hne, hnp, hf]

/-- C4, at a store whose `roles` table has no role named `user`: the insert of
step 5 selects no row, the registration is committed and answered 201, and the
created user holds no role. -/
theorem register_without_user_role_binds_nothing :
    (post_register sampleEnv unseededStore sampleRegister).1.status = 201 ∧
    (post_register sampleEnv unseededStore sampleRegister).2.utilisateurs =
      [⟨1, "n@b.c", "h:pw", none, none, true, 5, 5⟩] ∧
    roleNamesOf (post_register sampleEnv unseededStore sampleRegister).2 1 = [] ∧
    ¬ (∀ n, n ∈ roleNamesOf (post_register sampleEnv unseededStore sampleRegister).2 1 ↔
        n = "user") := by
  refine ⟨by decide, by decide, by decide, ?_⟩
  intro h
  have h1 : "user" ∈ roleNamesOf (post_register sampleEnv unseededStore sampleRegister).2 1 :=
    (h "user").2 rfl
  have h2 : roleNamesOf (post_register sampleEnv unseededStore sampleRegister).2 1 = [] := by
    decide
  rw [h2] at h1
  simp at h1

/-- What registration does on the other stores: a registration with non-empty
email and password is answered 409 and changes nothing when the email is taken;
otherwise it is answered 201 and adds exactly one user row, with that email and the
id of the sequence, and, when `roles` has a role named `user` (role ids being
unique and no binding yet referring to the new id), the role names the created
user holds are exactly `user`. -/
theorem register_conflict_or_default_role (env : Env) (st : Store) (body : RegisterBody)
    (email password : String) (he : body.email = some email)
    (hp : body.password = some password) (hne : email ≠ "") (hnp : password ≠ "") :
    ((∃ u ∈ st.utilisateurs, u.email = email) →
      post_register env st body = (⟨409, .error "Email déjà utilisé"⟩, st)) ∧
    ((∀ u ∈ st.utilisateurs, u.email ≠ email) →
      ∃ row : Utilisateur, row.email = email ∧ row.id = st.utilisateurs_id_seq ∧
        (post_register env st body).1.status = 201 ∧
        (post_register env st body).2.utilisateurs = st.utilisateurs ++ [row] ∧
        ((∃ r ∈ st.roles, r.nom = "user") →
          (∀ r ∈ st.roles, ∀ r2 ∈ st.roles, r.id = r2.id → r = r2) →
          (∀ ur ∈ st.utilisateur_roles, ur.utilisateur_id ≠ st.utilisateurs_id_seq) →
          ∀ n, n ∈ roleNamesOf (post_register env st body).2 row.id ↔ n = "user")) := by
  refine ⟨post_register_conflict env st body email password he hp hne hnp, ?_⟩
  intro hno
  rw [post_register_created env st body email password he hp hne hnp hno]
  refine ⟨_, rfl, rfl, rfl, rfl, ?_⟩
  rintro ⟨r0, hr0, hr0n⟩ hkey hfresh n
  have hold : (st.utilisateur_roles.filter
      fun ur => decide (ur.utilisateur_id = st.utilisateurs_id_seq)) = [] := by
    rw [List.filter_eq_nil_iff]
    intro ur hur
    simpa using hfresh ur hur
  simp only [roleNamesOf, List.filter_append, hold, List.nil_append, List.mem_flatMap,
    List.mem_filter, List.mem_map, decide_eq_true_eq]
  constructor
  · rintro ⟨ur, ⟨⟨r, ⟨hr, hrn⟩, rfl⟩, _⟩, r2, ⟨hr2, hid⟩, rfl⟩
    simp only [Option.some.injEq] at hid
    rw [← hkey r hr r2 hr2 hid]
    exact hrn
  · rintro rfl
    exact ⟨⟨st.utilisateurs_id_seq, some r0.id⟩, ⟨⟨r0, ⟨hr0, hr0n⟩, rfl⟩, rfl⟩,
      r0, ⟨hr0, rfl⟩, hr0n⟩

/-- On the sample store the email of the sample user is refused, and a fresh
email gets the role `user`. -/
theorem register_conflict_or_default_role_witness :
    post_register sampleEnv sampleStore ⟨some "a@b.c", some "pw", none, none⟩ =
      (⟨409, .error "Email déjà utilisé"⟩, sampleStore) ∧
    ∃ row : Utilisateur, row.email = "n@b.c" ∧
      (post_register sampleEnv sampleStore sampleRegister).2.utilisateurs =
        sampleStore.utilisateurs ++ [row] ∧
      ∀ n, n ∈ roleNamesOf (post_register sampleEnv sampleStore sampleRegister).2 row.id ↔
        n = "user" :=
  ⟨(register_conflict_or_default_role sampleEnv sampleStore
      ⟨some "a@b.c", some "pw", none, none⟩ "a@b.c" "pw" rfl rfl (by decide) (by decide)).1
      (by decide),
    match (register_conflict_or_default_role sampleEnv sampleStore sampleRegister "n@b.c" "pw"
      rfl rfl (by decide) (by decide)).2 (by decide) with
    | ⟨row, h1, _, _, h4, h5⟩ => ⟨row, h1, h4, h5 (by decide) (by decide) (by decide)⟩⟩

/-! ## Self-deletion -/

theorem delete_user_of_auth (env : Env) (st : Store) (authorization : Option String)
    (id : String) (ctx : AuthContext)
    (hauth : requireAuth st env.now authorization = .next ctx) :
    delete_user env st authorization id =
      if utilisateur_a_permission st ctx.user.utilisateur_id "users" "delete" = true then
        deleteHandler env st ctx id
      else (⟨403, .error "Permission refusée"⟩, st) := by
  unfold delete_user
  rw [hauth]
  by_cases hperm : utilisateur_a_permission st ctx.user.utilisateur_id "users" "delete" = true
  · simp [requirePermission, hperm]
  · simp [requirePermission, hperm]

/-- C5, as stated, fails: the sample user, who holds no permission to delete
users, asks to delete the own account and is answered 403 by the permission
middleware, not the self-deletion rejection. -/
theorem self_delete_without_permission_is_forbidden :
    utilisateur_a_permission sampleStore 1 "users" "delete" = false ∧
    delete_user sampleEnv sampleStore (some "Bearer tok") "1" =
      (⟨403, .error "Permission refusée"⟩, sampleStore) := by
  constructor
  · decide
  · rfl

/-- C5, amended: a delete request of an authenticated caller whose target id is the
caller's own id leaves every table unchanged; it is answered with the self-deletion
rejection (400) when the caller holds the permission to delete users, and with 403
by the permission middleware when the caller does not. -/
theorem self_delete_rejected (env : Env) (st : Store) (authorization : Option String)
    (id : String) (ctx : AuthContext)
    (hauth : requireAuth st env.now authorization = .next ctx)
    (hself : parseInt (some id) = some ctx.user.utilisateur_id) :
    (delete_user env st authorization id).2 = st ∧
    (utilisateur_a_permission st ctx.user.utilisateur_id "users" "delete" = true →
      (delete_user env st authorization id).1 =
        ⟨400, .error "Impossible de supprimer votre propre compte"⟩) ∧
    (utilisateur_a_permission st ctx.user.utilisateur_id "users" "delete" = false →
      (delete_user env st authorization id).1 = ⟨403, .error "Permission refusée"⟩) := by
  rw [delete_user_of_auth env st authorization id ctx hauth]
  by_cases hperm : utilisateur_a_permission st ctx.user.utilisateur_id "users" "delete" = true
  · simp [hperm, deleteHandler, hself]
  · simp [hperm]

/-- C5 amended, on the sample store with an administrator: the own account is
refused with 400 and nothing changes. -/
theorem self_delete_rejected_witness :
    (delete_user sampleEnv adminStore (some "Bearer tok") "1").2 = adminStore ∧
    (delete_user sampleEnv adminStore (some "Bearer tok") "1").1 =
      ⟨400, .error "Impossible de supprimer votre propre compte"⟩ :=
  ⟨(self_delete_rejected sampleEnv adminStore (some "Bearer tok") "1"
      ⟨⟨1, "a@b.c", some "Nom", none⟩, "tok"⟩ rfl rfl).1,
    (self_delete_rejected sampleEnv adminStore (some "Bearer tok") "1"
      ⟨⟨1, "a@b.c", some "Nom", none⟩, "tok"⟩ rfl rfl).2.1 (by decide)⟩

/-! ## Logout and revocation -/

theorem revoke_of_no_active (st : Store) (token : String)
    (h : ∀ s ∈ st.sessions, s.token = token → s.actif = false) :
    revoke st token = ([], st) := by
  have h1 : (st.sessions.filter fun s => decide (s.token = token) && s.actif) = [] := by
    rw [List.filter_eq_nil_iff]
    intro s hs
    by_cases ht : s.token = token
    · simp [ht, h s hs ht]
    · simp [ht]
  have h2 : (st.sessions.map fun s =>
      if (decide (s.token = token) && s.actif) = true then { s with actif := false } else s)
      = st.sessions := by
    conv_rhs => rw [← List.map_id st.sessions]
    apply List.map_congr_left
    intro s hs
    by_cases ht : s.token = token
    · simp [ht, h s hs ht]
    · simp [ht]
  simp only [revoke, h1, h2, List.map_nil]

theorem revoke_inactive (st : Store) (token : String) :
    ∀ s ∈ (revoke st token).2.sessions, s.token = token → s.actif = false := by
  intro s hs ht
  simp only [revoke, List.mem_map] at hs
  obtain ⟨s0, _, rfl⟩ := hs
  by_cases hc : (decide (s0.token = token) && s0.actif) = true
  · simp [hc]
  · simp only [hc] at ht ⊢
    simp only [Bool.and_eq_true, decide_eq_true_eq, not_and, Bool.not_eq_true] at hc
    simpa using hc (by simpa using ht)

/-- C6, as stated, fails: a logout with the token of a session that is already
inactive is answered 401 by `requireAuth`, not the success acknowledgement. -/
theorem logout_of_revoked_token_is_unauthorized :
    post_logout sampleEnv loggedOutStore (some "Bearer tok") =
      (⟨401, .error "Token invalide ou expiré"⟩, loggedOutStore) := by
  rfl

/-- C6, amended: a logout request with a token whose sessions are all inactive is
answered 401 by `requireAuth` and leaves the store unchanged, so it appends no audit
entry; the logout handler itself, reached with such a token, answers the success
acknowledgement, appends no audit entry and changes nothing. -/
theorem logout_of_revoked_token (env : Env) (st : Store) (token : String)
    (h : ∀ s ∈ st.sessions, s.token = token → s.actif = false) :
    post_logout env st (some ("Bearer " ++ token)) =
      (⟨401, .error "Token invalide ou expiré"⟩, st) ∧
    ∀ user : Identity,
      logoutHandler env st ⟨user, token⟩ = (⟨200, .message "Déconnexion réussie"⟩, st) := by
  constructor
  · have hsel : selectSession st env.now token = [] := by
      cases hs : selectSession st env.now token with
      | nil => rfl
      | cons row rest =>
        have hm : row ∈ selectSession st env.now token := by rw [hs]; simp
        obtain ⟨s, hs1, _, _, a, b, _⟩ := (mem_selectSession st env.now _ _).1 hm
        rw [h s hs1 a] at b
        simp at b
    simp only [post_logout, requireAuth_bearer, hsel]
  · intro user
    simp only [logoutHandler, revoke_of_no_active st token h]

/-- C6 amended, on the sample store after logout. -/
theorem logout_of_revoked_token_witness :
    post_logout sampleEnv loggedOutStore (some ("Bearer " ++ "tok")) =
      (⟨401, .error "Token invalide ou expiré"⟩, loggedOutStore) ∧
    logoutHandler sampleEnv loggedOutStore ⟨⟨1, "a@b.c", some "Nom", none⟩, "tok"⟩ =
      (⟨200, .message "Déconnexion réussie"⟩, loggedOutStore) :=
  ⟨(logout_of_revoked_token sampleEnv loggedOutStore "tok" (by decide)).1,
    (logout_of_revoked_token sampleEnv loggedOutStore "tok" (by decide)).2 _⟩

/-- C7: the session update of logout, applied a second time with the same token,
returns no row and leaves the store as the first application left it; applied with
a token no session has, it returns no row and changes nothing. -/
theorem revoke_twice (st : Store) (token : String) :
    (revoke (revoke st token).2 token).1 = [] ∧
    (revoke (revoke st token).2 token).2 = (revoke st token).2 ∧
    ((∀ s ∈ st.sessions, s.token ≠ token) → revoke st token = ([], st)) := by
  have h := revoke_of_no_active (revoke st token).2 token (revoke_inactive st token)
  refine ⟨by rw [h], by rw [h], ?_⟩
  intro hno
  exact revoke_of_no_active st token fun s hs ht => absurd ht (hno s hs)

/-- C7, on the sample store: the live token is revoked once, and a token no session
has is not revoked. -/
theorem revoke_twice_witness :
    (revoke sampleStore "tok").1 = [1] ∧
    (revoke (revoke sampleStore "tok").2 "tok").1 = [] ∧
    revoke sampleStore "other" = ([], sampleStore) :=
  ⟨by decide, (revoke_twice sampleStore "tok").1,
    (revoke_twice sampleStore "other").2.2 (by decide)⟩

/-! ## Pagination -/

theorem page_ge_one (queryPage : Option String) : 1 ≤ page queryPage := by
  unfold page
  exact le_max_right _ _

theorem limit_le_hundred (queryLimit : Option String) : limit queryLimit ≤ 100 := by
  unfold limit
  exact min_le_right _ _

theorem limit_of_nan (queryLimit : Option String) (h : parseInt queryLimit = none) :
    limit queryLimit = 20 := by
  simp [limit, h, orInt]

theorem limit_of_zero (queryLimit : Option String) (h : parseInt queryLimit = some 0) :
    limit queryLimit = 20 := by
  simp [limit, h, orInt]

theorem limit_of_parsed (queryLimit : Option String) (n : Int)
    (h : parseInt queryLimit = some n) (hn : n ≠ 0) : limit queryLimit = min n 100 := by
  simp [limit, h, orInt, hn]

theorem limit_pos_of_not_negative (queryLimit : Option String)
    (h : ∀ n, parseInt queryLimit = some n → 0 ≤ n) : 1 ≤ limit queryLimit := by
  cases hp : parseInt queryLimit with
  | none => rw [limit_of_nan _ hp]; decide
  | some n =>
    by_cases hn : n = 0
    · subst hn; rw [limit_of_zero _ hp]; decide
    · rw [limit_of_parsed _ n hp hn]
      have := h n hp
      omega

/-- C8, at a negative `limit` parameter: `GET /api/users?limit=-5` computes the
limit -5, below the range from 1 to 100, and the page query then fails with 500. -/
theorem limit_negative_not_clamped :
    parseInt (some "-5") = some (-5) ∧
    limit (some "-5") = -5 ∧
    listHandler sampleStore none (some "-5") = ⟨500, .error "Erreur serveur"⟩ := by
  refine ⟨by decide, by decide, by decide⟩

theorem selectUsers_of_pos (st : Store) (p l : Int) (hp : 1 ≤ p) (hl : 1 ≤ l)
    (hp53 : p ≤ 2 ^ 53) (hl100 : l ≤ 100) :
    selectUsers st l (offset p l) =
      some ((((orderByIdDesc st.utilisateurs).drop (offset p l).toNat).take l.toNat).map
        toUserRow) := by
  have ho : 0 ≤ offset p l := by
    unfold offset
    exact mul_nonneg (by omega) (by omega)
  have h53 : (2 : Int) ^ 53 = 9007199254740992 := by norm_num
  have h63 : (2 : Int) ^ 63 = 9223372036854775808 := by norm_num
  have hub : offset p l ≤ (2 ^ 53 - 1) * 100 := by
    unfold offset
    exact mul_le_mul (by omega) hl100 (by omega) (by rw [h53]; decide)
  rw [h53] at hub
  have hc : ¬ (l < 0 ∨ offset p l < 0 ∨ 2 ^ 63 ≤ l ∨ 2 ^ 63 ≤ offset p l) := by
    rw [h63]
    omega
  simp only [selectUsers, hc, if_false]

theorem listHandler_of_not_negative (st : Store) (queryPage queryLimit : Option String)
    (h : ∀ n, parseInt queryLimit = some n → 0 ≤ n) (hp53 : page queryPage ≤ 2 ^ 53) :
    listHandler st queryPage queryLimit =
      ⟨200, .userList
        ⟨page queryPage, limit queryLimit, st.utilisateurs.length,
          totalPages st.utilisateurs.length (limit queryLimit)⟩
        ((((orderByIdDesc st.utilisateurs).drop
          (offset (page queryPage) (limit queryLimit)).toNat).take
            (limit queryLimit).toNat).map toUserRow)⟩ := by
  simp only [listHandler, selectUsers_of_pos st _ _ (page_ge_one queryPage)
    (limit_pos_of_not_negative queryLimit h) hp53 (limit_le_hundred queryLimit)]

theorem listed_length_le (st : Store) (queryPage queryLimit : Option String) :
    ((((orderByIdDesc st.utilisateurs).drop
        (offset (page queryPage) (limit queryLimit)).toNat).take
          (limit queryLimit).toNat).map toUserRow).length ≤ (limit queryLimit).toNat ∧
    (limit queryLimit).toNat ≤ 100 := by
  constructor
  · rw [List.length_map, List.length_take]
    exact min_le_left _ _
  · have := limit_le_hundred queryLimit
    omega

theorem orderByIdDesc_perm (us : List Utilisateur) : (orderByIdDesc us).Perm us :=
  List.perm_insertionSort _ us

theorem orderByIdDesc_sorted (us : List Utilisateur) :
    (orderByIdDesc us).Sorted fun a b => b.id ≤ a.id := by
  haveI : IsTotal Utilisateur fun a b => b.id ≤ a.id := ⟨fun a b => le_total b.id a.id⟩
  haveI : IsTrans Utilisateur fun a b => b.id ≤ a.id := ⟨fun _ _ _ h1 h2 => le_trans h2 h1⟩
  exact List.sorted_insertionSort _ us

theorem totalPages_le_iff (total l n : Int) (hl : 1 ≤ l) :
    totalPages total l ≤ n ↔ total ≤ n * l ∧ 1 ≤ n := by
  have hq : (0 : ℚ) < (l : ℚ) := by exact_mod_cast (by omega : (0 : Int) < l)
  unfold totalPages
  rw [max_le_iff, Int.ceil_le, div_le_iff₀ hq]
  constructor
  · rintro ⟨h1, h2⟩
    exact ⟨by exact_mod_cast h1, h2⟩
  · rintro ⟨h1, h2⟩
    exact ⟨by exact_mod_cast h1, h2⟩

theorem totalPages_ge_one (total l : Int) : 1 ≤ totalPages total l := by
  unfold totalPages
  exact le_max_right _ _

theorem list_page_two_of_25 (st : Store) (h : st.utilisateurs.length = 25) :
    ∃ rows, listHandler st (some "2") (some "10") =
        ⟨200, .userList ⟨2, 10, 25, 3⟩ rows⟩ ∧ rows.length = 10 := by
  have hl : limit (some "10") = 10 := by decide
  have hp : page (some "2") = 2 := by decide
  have hneg : ∀ n, parseInt (some "10") = some n → 0 ≤ n := by
    intro n hn
    have h10 : parseInt (some "10") = some 10 := by decide
    rw [h10] at hn
    simp only [Option.some.injEq] at hn
    omega
  have htp : totalPages 25 10 = 3 := by
    apply le_antisymm
    · exact (totalPages_le_iff 25 10 3 (by decide)).2 ⟨by decide, by decide⟩
    · by_contra hlt
      have h2 : totalPages 25 10 ≤ 2 := by omega
      have := ((totalPages_le_iff 25 10 2 (by decide)).1 h2).1
      omega
  have ho : (offset 2 10).toNat = 10 := by decide
  have h10 : (10 : Int).toNat = 10 := by decide
  refine ⟨(((orderByIdDesc st.utilisateurs).drop 10).take 10).map toUserRow, ?_, ?_⟩
  · rw [listHandler_of_not_negative st _ _ hneg (by rw [hp]; norm_num), hl, hp, h, ho, h10]
    simp only [Nat.cast_ofNat, htp]
  · rw [List.length_map, List.length_take, List.length_drop]
    have hlen : (orderByIdDesc st.utilisateurs).length = 25 := by
      rw [orderByIdDesc, List.length_insertionSort, h]
    rw [hlen]
    decide

/-- C9, at a negative `limit` parameter: whatever the store and the page, the list
request with `limit=-5` returns no page at all, it is answered 500. -/
theorem list_negative_limit_fails (st : Store) (queryPage : Option String) :
    listHandler st queryPage (some "-5") = ⟨500, .error "Erreur serveur"⟩ := by
  have hl : limit (some "-5") = -5 := by decide
  simp [listHandler, hl, selectUsers]

/-! ## Role replacement -/

theorem updateUtilisateur_roles (env : Env) (st : Store) (id : Int) (body : UpdateBody) :
    (updateUtilisateur env st id body).2.utilisateur_roles = st.utilisateur_roles ∧
    (updateUtilisateur env st id body).2.roles = st.roles := by
  simp [updateUtilisateur]

theorem updateHandler_found (env : Env) (st : Store) (id : String) (uid : Int)
    (body : UpdateBody) (hid : env.pgInteger id = some uid)
    (hex : ∃ u ∈ st.utilisateurs, u.id = uid) :
    (updateHandler env st id body).1.status = 200 ∧
    (updateHandler env st id body).2 =
      match body.roles with
      | none => (updateUtilisateur env st uid body).2
      | some roles => replaceRoles env (updateUtilisateur env st uid body).2 uid roles := by
  obtain ⟨u, hu, huid⟩ := hex
  cases hf : st.utilisateurs.filter fun v => decide (v.id = uid) with
  | nil =>
    have : u ∈ st.utilisateurs.filter fun v => decide (v.id = uid) := by
      simp [List.mem_filter, hu, huid]
    rw [hf] at this
    simp at this
  | cons w rest =>
    have h1 : (updateUtilisateur env st uid body).1 = w.id :: rest.map fun v => v.id := by
      simp [updateUtilisateur, hf]
    have h2 : updateUtilisateur env st uid body =
        (w.id :: rest.map fun v => v.id, (updateUtilisateur env st uid body).2) := by
      rw [← h1]
    unfold updateHandler
    rw [hid]
    simp only
    rw [h2]
    simp

theorem replaceRoles_bindings (env : Env) (st : Store) (id : Int) (roles : List String) :
    (replaceRoles env st id roles).utilisateur_roles =
      (st.utilisateur_roles.filter fun ur => !decide (ur.utilisateur_id = id)) ++
        roles.map fun n => { utilisateur_id := id, role_id := roleIdByName st (env.toLowerCase n) } := by
  cases roles with
  | nil => simp [replaceRoles]
  | cons r rs => simp [replaceRoles, roleIdByName, Function.comp_def]

theorem listPermissions_of_no_binding (st : Store) (id : Int)
    (h : ∀ ur ∈ st.utilisateur_roles, ur.utilisateur_id ≠ id) : listPermissions st id = [] := by
  have hrows : ((st.utilisateurs.filter fun u => decide (u.id = id)).flatMap fun u =>
      (st.utilisateur_roles.filter fun ur => decide (u.id = ur.utilisateur_id)).flatMap fun ur =>
        (st.role_permissions.filter fun rp => decide (ur.role_id = some rp.role_id)).flatMap
          fun rp =>
            (st.permissions.filter fun p => decide (p.id = rp.permission_id)).map
              toPermissionRow) = [] := by
    rw [List.flatMap_eq_nil_iff]
    intro u hu
    simp only [List.mem_filter, decide_eq_true_eq] at hu
    have hnil : (st.utilisateur_roles.filter fun ur => decide (u.id = ur.utilisateur_id)) = [] := by
      rw [List.filter_eq_nil_iff]
      intro ur hur
      have := h ur hur
      simp only [decide_eq_true_eq]
      intro he
      exact this (he ▸ hu.2)
    rw [hnil]
    rfl
  simp only [listPermissions, hrows]
  rfl

theorem get_user_permissions_of_none (env : Env) (st : Store)
    (authorization : Option String) (id : String) (uid : Int) (ctx : AuthContext)
    (hauth : requireAuth st env.now authorization = .next ctx)
    (hperm : utilisateur_a_permission st ctx.user.utilisateur_id "users" "read" = true)
    (hid : env.pgInteger id = some uid) (hnone : listPermissions st uid = []) :
    get_user_permissions env st authorization id =
      ⟨404, .error "Utilisateur ou permissions introuvables"⟩ := by
  simp [get_user_permissions, hauth, requirePermission, hperm, hid, hnone]

theorem updateHandler_binding_rows (env : Env) (st : Store) (id : String) (uid : Int)
    (body : UpdateBody) (roles : List String)
    (hid : env.pgInteger id = some uid)
    (hex : ∃ u ∈ st.utilisateurs, u.id = uid)
    (hroles : body.roles = some roles) :
    (updateHandler env st id body).1.status = 200 ∧
    ((updateHandler env st id body).2.utilisateur_roles.filter
        fun ur => decide (ur.utilisateur_id = uid)) =
      roles.map (fun n => { utilisateur_id := uid, role_id := roleIdByName st (env.toLowerCase n) }) ∧
    (∀ other : Int, other ≠ uid →
      ((updateHandler env st id body).2.utilisateur_roles.filter
          fun ur => decide (ur.utilisateur_id = other)) =
        st.utilisateur_roles.filter fun ur => decide (ur.utilisateur_id = other)) ∧
    (roles = [] →
      (∀ ur ∈ (updateHandler env st id body).2.utilisateur_roles, ur.utilisateur_id ≠ uid) ∧
      listPermissions (updateHandler env st id body).2 uid = []) := by
  obtain ⟨hstatus, hstore⟩ := updateHandler_found env st id uid body hid hex
  obtain ⟨hur, hro⟩ := updateUtilisateur_roles env st uid body
  have hb : (updateHandler env st id body).2.utilisateur_roles =
      (st.utilisateur_roles.filter fun ur => !decide (ur.utilisateur_id = uid)) ++
        roles.map fun n =>
          { utilisateur_id := uid, role_id := roleIdByName st (env.toLowerCase n) } := by
    rw [hstore, hroles]
    simp only
    rw [replaceRoles_bindings, hur]
    simp only [roleIdByName, hro]
  have hkeep : ∀ l : List UtilisateurRole,
      ((l.filter fun ur => !decide (ur.utilisateur_id = uid)).filter
        fun ur => decide (ur.utilisateur_id = uid)) = [] := by
    intro l
    rw [List.filter_eq_nil_iff]
    intro ur hur
    simp only [List.mem_filter, Bool.not_eq_true', decide_eq_false_iff_not] at hur
    simpa using hur.2
  refine ⟨hstatus, ?_, ?_, ?_⟩
  · rw [hb, List.filter_append, hkeep, List.nil_append, List.filter_eq_self]
    intro ur hur
    simp only [List.mem_map] at hur
    obtain ⟨n, _, rfl⟩ := hur
    simp
  · intro other hne
    rw [hb, List.filter_append, List.filter_filter]
    have h1 : (st.utilisateur_roles.filter fun ur =>
        decide (ur.utilisateur_id = other) && !decide (ur.utilisateur_id = uid)) =
        st.utilisateur_roles.filter fun ur => decide (ur.utilisateur_id = other) := by
      apply List.filter_congr
      intro ur _
      by_cases ho : ur.utilisateur_id = other
      · simp [ho, hne]
      · simp [ho]
    have h2 : ((roles.map fun n =>
        ({ utilisateur_id := uid, role_id := roleIdByName st (env.toLowerCase n) } :
          UtilisateurRole)).filter fun ur => decide (ur.utilisateur_id = other)) = [] := by
      rw [List.filter_eq_nil_iff]
      intro ur hur
      simp only [List.mem_map] at hur
      obtain ⟨n, _, rfl⟩ := hur
      simpa using hne.symm
    rw [h1, h2, List.append_nil]
  · intro hnil
    have hno : ∀ ur ∈ (updateHandler env st id body).2.utilisateur_roles,
        ur.utilisateur_id ≠ uid := by
      intro ur hur
      rw [hb, hnil] at hur
      simp only [List.map_nil, List.append_nil, List.mem_filter, Bool.not_eq_true',
        decide_eq_false_iff_not] at hur
      exact hur.2
    exact ⟨hno, listPermissions_of_no_binding _ uid hno⟩

/-! ## Role names of an update -/

theorem roleIdByName_eq_none (st : Store) (nom : String) :
    roleIdByName st nom = none ↔ ∀ r ∈ st.roles, r.nom ≠ nom := by
  simp [roleIdByName, List.find?_eq_none]

theorem roleIdByName_of_some (st : Store) (nom : String) (i : Int)
    (h : roleIdByName st nom = some i) : ∃ r ∈ st.roles, r.nom = nom ∧ r.id = i := by
  simp only [roleIdByName, Option.map_eq_some'] at h
  obtain ⟨r, hr, hi⟩ := h
  have hp := List.find?_some hr
  simp only [decide_eq_true_eq] at hp
  exact ⟨r, List.mem_of_find?_eq_some hr, hp, hi⟩

theorem roleIdByName_of_mem (st : Store) (r : Role) (hr : r ∈ st.roles) :
    ∃ r0 ∈ st.roles, r0.nom = r.nom ∧ roleIdByName st r.nom = some r0.id := by
  cases h : roleIdByName st r.nom with
  | none => exact absurd rfl ((roleIdByName_eq_none st r.nom).1 h r hr)
  | some i =>
    obtain ⟨r0, h0, hn, hi⟩ := roleIdByName_of_some st r.nom i h
    exact ⟨r0, h0, hn, by rw [hi]⟩

theorem updateHandler_tables (env : Env) (st : Store) (id : String) (uid : Int)
    (body : UpdateBody) (roles : List String)
    (hid : env.pgInteger id = some uid)
    (hex : ∃ u ∈ st.utilisateurs, u.id = uid)
    (hroles : body.roles = some roles) :
    (updateHandler env st id body).2.utilisateur_roles =
      (st.utilisateur_roles.filter fun ur => !decide (ur.utilisateur_id = uid)) ++
        roles.map (fun n =>
          { utilisateur_id := uid, role_id := roleIdByName st (env.toLowerCase n) }) ∧
    (updateHandler env st id body).2.roles = st.roles := by
  obtain ⟨_, hstore⟩ := updateHandler_found env st id uid body hid hex
  obtain ⟨hur, hro⟩ := updateUtilisateur_roles env st uid body
  rw [hstore, hroles]
  simp only
  constructor
  · rw [replaceRoles_bindings, hur]
    simp only [roleIdByName, hro]
  · cases roles with
    | nil => simpa [replaceRoles] using hro
    | cons r rs => simpa [replaceRoles] using hro

theorem update_role_names (env : Env) (st : Store) (id : String) (uid : Int)
    (body : UpdateBody) (roles : List String)
    (hid : env.pgInteger id = some uid)
    (hex : ∃ u ∈ st.utilisateurs, u.id = uid)
    (hroles : body.roles = some roles)
    (hkey : ∀ r ∈ st.roles, ∀ r2 ∈ st.roles, r.id = r2.id → r = r2) (n : String) :
    n ∈ roleNamesOf (updateHandler env st id body).2 uid ↔
      ∃ x ∈ roles, env.toLowerCase x = n ∧ ∃ r ∈ st.roles, r.nom = n := by
  obtain ⟨hb, hr⟩ := updateHandler_tables env st id uid body roles hid hex hroles
  simp only [roleNamesOf, hb, hr, List.mem_flatMap, List.mem_filter, List.mem_map,
    List.mem_append, decide_eq_true_eq, Bool.not_eq_true', decide_eq_false_iff_not]
  constructor
  · rintro ⟨ur, ⟨hmem, huid⟩, r, ⟨hr1, hrid⟩, rfl⟩
    rcases hmem with ⟨_, hne⟩ | ⟨x, hx, rfl⟩
    · exact absurd huid hne
    · obtain ⟨r0, h0, hn0, hi0⟩ := roleIdByName_of_some st _ _ hrid
      have : r0 = r := hkey r0 h0 r hr1 hi0
      subst this
      exact ⟨x, hx, hn0.symm, r0, h0, rfl⟩
  · rintro ⟨x, hx, rfl, r, hr1, hn⟩
    obtain ⟨r0, h0, hn0, hi0⟩ := roleIdByName_of_mem st r hr1
    rw [hn] at hi0 hn0
    exact ⟨⟨uid, some r0.id⟩, ⟨Or.inr ⟨x, hx, by rw [hi0]⟩, rfl⟩, r0, ⟨h0, rfl⟩, hn0⟩

theorem update_unknown_name_binds_null (env : Env) (st : Store) (id : String) (uid : Int)
    (body : UpdateBody) (roles : List String)
    (hid : env.pgInteger id = some uid)
    (hex : ∃ u ∈ st.utilisateurs, u.id = uid)
    (hroles : body.roles = some roles) (x : String) (hx : x ∈ roles)
    (hunknown : ∀ r ∈ st.roles, r.nom ≠ env.toLowerCase x) :
    (updateHandler env st id body).1.status = 200 ∧
    (⟨uid, none⟩ : UtilisateurRole) ∈ (updateHandler env st id body).2.utilisateur_roles := by
  obtain ⟨hb, _⟩ := updateHandler_tables env st id uid body roles hid hex hroles
  refine ⟨(updateHandler_found env st id uid body hid hex).1, ?_⟩
  rw [hb, List.mem_append]
  right
  rw [List.mem_map]
  exact ⟨x, hx, by rw [(roleIdByName_eq_none st _).2 hunknown]⟩

/-- C10, as stated, fails: an update of the sample user, who holds the role
`user`, with `roles: ["Ghost"]` is answered 200 and leaves the user with no role at
all, not with the supplied one. -/
theorem update_unknown_role_leaves_no_role :
    (updateHandler lowerEnv sampleStore "1" (rolesBody ["Ghost"])).1.status = 200 ∧
    roleNamesOf sampleStore 1 = ["user"] ∧
    roleNamesOf (updateHandler lowerEnv sampleStore "1" (rolesBody ["Ghost"])).2 1 = [] ∧
    ¬ (∀ n, n ∈ roleNamesOf (updateHandler lowerEnv sampleStore "1" (rolesBody ["Ghost"])).2 1 ↔
        n ∈ ["Ghost"]) := by
  refine ⟨by decide, by decide, by decide, ?_⟩
  intro h
  have h1 : "Ghost" ∈
      roleNamesOf (updateHandler lowerEnv sampleStore "1" (rolesBody ["Ghost"])).2 1 :=
    (h "Ghost").2 (by simp)
  have h2 : roleNamesOf (updateHandler lowerEnv sampleStore "1" (rolesBody ["Ghost"])).2 1
      = [] := by decide
  rw [h2] at h1
  simp at h1

/-- C10, amended: an update of an existing user that carries a `roles` array is
answered 200 and replaces the roles the user holds by the existing roles whose name
is the lower-cased form of a supplied name, which are the supplied names themselves
when each of them is the lower-case name of a role; with the empty array the user
has no binding left and the permissions query for that user returns no row; the
bindings of every other user are as before. Role ids are unique. -/
theorem update_replaces_role_set (env : Env) (st : Store) (id : String) (uid : Int)
    (body : UpdateBody) (roles : List String)
    (hid : env.pgInteger id = some uid)
    (hex : ∃ u ∈ st.utilisateurs, u.id = uid)
    (hroles : body.roles = some roles)
    (hkey : ∀ r ∈ st.roles, ∀ r2 ∈ st.roles, r.id = r2.id → r = r2) :
    (updateHandler env st id body).1.status = 200 ∧
    (∀ n, n ∈ roleNamesOf (updateHandler env st id body).2 uid ↔
      ∃ x ∈ roles, env.toLowerCase x = n ∧ ∃ r ∈ st.roles, r.nom = n) ∧
    ((∀ x ∈ roles, env.toLowerCase x = x ∧ ∃ r ∈ st.roles, r.nom = x) →
      ∀ n, n ∈ roleNamesOf (updateHandler env st id body).2 uid ↔ n ∈ roles) ∧
    (roles = [] →
      (∀ ur ∈ (updateHandler env st id body).2.utilisateur_roles, ur.utilisateur_id ≠ uid) ∧
      listPermissions (updateHandler env st id body).2 uid = []) ∧
    (∀ other : Int, other ≠ uid →
      ((updateHandler env st id body).2.utilisateur_roles.filter
          fun ur => decide (ur.utilisateur_id = other)) =
        st.utilisateur_roles.filter fun ur => decide (ur.utilisateur_id = other)) := by
  obtain ⟨hstatus, _, hother, hempty⟩ :=
    updateHandler_binding_rows env st id uid body roles hid hex hroles
  have hnames := update_role_names env st id uid body roles hid hex hroles hkey
  refine ⟨hstatus, hnames, ?_, hempty, hother⟩
  intro hknown n
  rw [hnames n]
  constructor
  · rintro ⟨x, hx, rfl, _⟩
    rw [(hknown x hx).1]
    exact hx
  · intro hn
    exact ⟨n, hn, (hknown n hn).1, (hknown n hn).2⟩

/-- C10 amended, on the sample store: the array `["admin"]` leaves the sample user
with the role `admin` and no other, and the empty array leaves no binding and no
permission. -/
theorem update_replaces_role_set_witness :
    (∀ n, n ∈ roleNamesOf (updateHandler lowerEnv sampleStore "1" (rolesBody ["admin"])).2 1 ↔
      n ∈ ["admin"]) ∧
    (∀ ur ∈ (updateHandler lowerEnv sampleStore "1" (rolesBody [])).2.utilisateur_roles,
      ur.utilisateur_id ≠ 1) ∧
    listPermissions (updateHandler lowerEnv sampleStore "1" (rolesBody [])).2 1 = [] :=
  ⟨(update_replaces_role_set lowerEnv sampleStore "1" 1 (rolesBody ["admin"]) ["admin"]
      (by decide) (by decide) rfl (by decide)).2.2.1 (by decide),
    ((update_replaces_role_set lowerEnv sampleStore "1" 1 (rolesBody []) []
      (by decide) (by decide) rfl (by decide)).2.2.2.1 rfl).1,
    ((update_replaces_role_set lowerEnv sampleStore "1" 1 (rolesBody []) []
      (by decide) (by decide) rfl (by decide)).2.2.2.1 rfl).2⟩

/-- C11, at a list with an unknown name: `PUT /api/users/1` with
`roles: ["Admin", "Ghost"]` is answered 200, `Admin` is looked up as `admin` and
bound, and for `Ghost`, which names no role, a binding with a null role id is
inserted; the user returned in the response lists a null among the role names. -/
theorem update_unknown_role_inserts_null_binding :
    (updateHandler lowerEnv sampleStore "1" (rolesBody ["Admin", "Ghost"])).2.utilisateur_roles =
      [⟨1, some 2⟩, ⟨1, none⟩] ∧
    (updateHandler lowerEnv sampleStore "1" (rolesBody ["Admin", "Ghost"])).1 =
      ⟨200, .updated "Utilisateur mis à jour avec succès"
        (some ⟨1, "a@b.c", some "Nom", none, true, 0, [some "admin", none]⟩)⟩ ∧
    roleNamesOf (updateHandler lowerEnv sampleStore "1" (rolesBody ["Admin", "Ghost"])).2 1 =
      ["admin"] := by
  refine ⟨by decide, by decide, by decide⟩

/-! ## Users with their roles -/

theorem aggRoles_of_no_binding (st : Store) (u : Utilisateur)
    (h : ∀ ur ∈ st.utilisateur_roles, ur.utilisateur_id ≠ u.id) : aggRoles st u = [none] := by
  have hnil : (st.utilisateur_roles.filter fun ur => decide (u.id = ur.utilisateur_id)) = [] := by
    rw [List.filter_eq_nil_iff]
    intro ur hur
    simp only [decide_eq_true_eq]
    exact fun he => h ur hur he.symm
  simp only [aggRoles, hnil]

theorem joined_roles_ne_nil (st : Store) (b : UtilisateurRole) :
    (match st.roles.filter fun r => decide (b.role_id = some r.id) with
      | [] => [none]
      | r :: rs => (r :: rs).map fun x => some x.nom) ≠ ([] : List (Option String)) := by
  cases st.roles.filter fun r => decide (b.role_id = some r.id) with
  | nil => simp
  | cons r rs => simp

theorem aggRoles_ne_nil (st : Store) (u : Utilisateur) : aggRoles st u ≠ [] := by
  unfold aggRoles
  cases st.utilisateur_roles.filter fun ur => decide (u.id = ur.utilisateur_id) with
  | nil => simp
  | cons ur urs =>
    simp only [List.flatMap_cons]
    intro h
    exact joined_roles_ne_nil st ur (List.append_eq_nil.1 h).1

theorem flatMap_joined_roles (st : Store) (l : List UtilisateurRole)
    (h : ∀ b ∈ l, ∃ r ∈ st.roles, b.role_id = some r.id) :
    (l.flatMap fun b =>
      match st.roles.filter fun r => decide (b.role_id = some r.id) with
      | [] => [none]
      | r :: rs => (r :: rs).map fun x => some x.nom) =
    (l.flatMap fun b =>
      (st.roles.filter fun r => decide (b.role_id = some r.id)).map fun r => r.nom).map some := by
  induction l with
  | nil => rfl
  | cons b l ih =>
    have ih2 := ih fun c hc => h c (List.mem_cons_of_mem _ hc)
    obtain ⟨r, hr, hrid⟩ := h b (List.mem_cons_self _ _)
    simp only [List.flatMap_cons, List.map_append, ih2]
    congr 1
    cases hf : st.roles.filter fun r => decide (b.role_id = some r.id) with
    | nil =>
      have : r ∈ st.roles.filter fun r => decide (b.role_id = some r.id) := by
        simp [List.mem_filter, hr, hrid]
      rw [hf] at this
      simp at this
    | cons r0 rs => simp

theorem aggRoles_of_bound (st : Store) (u : Utilisateur)
    (hne : ∃ ur ∈ st.utilisateur_roles, ur.utilisateur_id = u.id)
    (hfk : ∀ ur ∈ st.utilisateur_roles, ur.utilisateur_id = u.id →
      ∃ r ∈ st.roles, ur.role_id = some r.id) :
    aggRoles st u = (roleNamesOf st u.id).map some := by
  have hflt : (st.utilisateur_roles.filter fun ur => decide (u.id = ur.utilisateur_id)) =
      st.utilisateur_roles.filter fun ur => decide (ur.utilisateur_id = u.id) := by
    apply List.filter_congr
    intro ur _
    simp only [eq_comm]
  unfold aggRoles roleNamesOf
  rw [hflt]
  cases hf : st.utilisateur_roles.filter fun ur => decide (ur.utilisateur_id = u.id) with
  | nil =>
    obtain ⟨ur, hur, hid⟩ := hne
    have : ur ∈ st.utilisateur_roles.filter fun ur => decide (ur.utilisateur_id = u.id) := by
      simp [List.mem_filter, hur, hid]
    rw [hf] at this
    simp at this
  | cons b l =>
    simp only
    apply flatMap_joined_roles
    intro c hc
    rw [← hf] at hc
    simp only [List.mem_filter, decide_eq_true_eq] at hc
    exact hfk c hc.1 hc.2

theorem fetchUserWithRoles_of_no_binding (st : Store) (id : Int)
    (hex : ∃ u ∈ st.utilisateurs, u.id = id)
    (h : ∀ ur ∈ st.utilisateur_roles, ur.utilisateur_id ≠ id) :
    (∃ w, fetchUserWithRoles st id = some w ∧ w.id = id ∧ w.roles = [none]) ∧
    (∃ p, profileQuery st id = some p ∧ p.id = id ∧ p.roles = [none]) := by
  obtain ⟨u, hu, huid⟩ := hex
  cases hf : st.utilisateurs.filter fun v => decide (v.id = id) with
  | nil =>
    have : u ∈ st.utilisateurs.filter fun v => decide (v.id = id) := by
      simp [List.mem_filter, hu, huid]
    rw [hf] at this
    simp at this
  | cons w rest =>
    have hw : w ∈ st.utilisateurs.filter fun v => decide (v.id = id) := by
      rw [hf]; simp
    simp only [List.mem_filter, decide_eq_true_eq] at hw
    have hagg : aggRoles st w = [none] :=
      aggRoles_of_no_binding st w fun ur hur => by rw [hw.2]; exact h ur hur
    constructor
    · refine ⟨⟨w.id, w.email, w.nom, w.prenom, w.actif, w.date_creation, aggRoles st w⟩,
        ?_, hw.2, hagg⟩
      simp only [fetchUserWithRoles, hf]
    · refine ⟨⟨w.id, w.email, w.nom, w.prenom, aggRoles st w⟩, ?_, hw.2, hagg⟩
      simp only [profileQuery, hf]

/-- C12, at a user who holds no role: `fetchUserWithRoles` and the profile query
return the user with a roles list that holds one null element, not the empty
list. -/
theorem no_role_user_lists_null_role :
    fetchUserWithRoles unboundStore 1 =
      some ⟨1, "a@b.c", some "Nom", none, true, 0, [none]⟩ ∧
    profileQuery unboundStore 1 = some ⟨1, "a@b.c", some "Nom", none, [none]⟩ ∧
    get_profile sampleEnv unboundStore (some "Bearer tok") =
      ⟨200, .profile (some ⟨1, "a@b.c", some "Nom", none, [none]⟩)⟩ := by
  refine ⟨by decide, by decide, by decide⟩

end GestionUtilisateurs
